import Mathlib

/-!
Shallow embedding of the 360Tube backend (Express + Mongoose controllers) and
proofs about the properties its specification claims.

Conventions of the embedding:
* Mongo ObjectIds are modelled as `Nat`.  Handlers receive already-parsed ids,
  so the `isValidObjectId` 400-branches (string-format checks) are outside the
  modelled domain.
* A Mongo collection is a `List` of documents; `findById`/`findOne` is
  `List.find?`, `save` replaces the document with the same id, `deleteOne` by
  id removes the documents carrying that id.
* External effects (JWT verification, Cloudinary transport) enter as explicit
  oracle parameters; remote/local deletions are returned as effect lists.
* An Express handler may attempt several response sends (the source sometimes
  sends an error response and then, missing a `return`, keeps running and
  sends again).  We record every attempted send in order in a `List Nat` of
  status codes; the first element is the response the client receives, since
  in Express the first write wins and later writes fail.
-/

namespace Tube

/-- A Cloudinary upload result: the stored asset's URL and public id
(`response.url`, `response.public_id` in the source). -/
structure CloudAsset where
  url : String
  public_id : String
deriving Repr, DecidableEq

/-- A stored image reference on a document (`{ url, publicId }` subdocument). -/
structure AssetRef where
  url : String
  publicId : String
deriving Repr, DecidableEq

/-- From `src/utils/ApiResponse.ts`: the uniform response envelope.
`success` is computed by the constructor as `statusCode < 400`. -/
structure ApiResponse (α : Type) where
  statusCode : Nat
  data : α
  message : String
  success : Bool
deriving Repr, DecidableEq

/-- The `ApiResponse` constructor from `src/utils/ApiResponse.ts`:
stores the three arguments and sets `success := statusCode < 400`. -/
def ApiResponse.make (statusCode : Nat) (data : α) (message : String) :
    ApiResponse α :=
  { statusCode := statusCode
    data := data
    message := message
    success := decide (statusCode < 400) }

/-- From `src/utils/cloudinary.ts`, `uploadOnCloudinary(localFilePath,
folderName)`.  The Cloudinary transport is an oracle: `transport = some a`
means `cloudinary.uploader.upload` returns asset `a`; `transport = none`
means it throws (any transport failure).  The result pairs the returned
value (`none` models the JS `null`) with the list of local files deleted by
`fs.unlinkSync`.  An empty `localFilePath` models a JS-falsy path (the
`if (!localFilePath) return null` guard). -/
def uploadOnCloudinary (localFilePath : String) (transport : Option CloudAsset) :
    Option CloudAsset × List String :=
  if localFilePath = "" then
    (none, [])
  else
    match transport with
    | some resp => (some resp, [localFilePath])
    | none => (none, [localFilePath])

/-- A user document (`src/models/user.model.ts`), restricted to the fields the
modelled handlers read or write.  `refreshToken` and `emailToken` are optional
in the schema, so they are `Option String`; in JS an unset field is
`undefined`, and `tok !== user.refreshToken` compares a string against
`undefined`, which our `some tok ≠ u.refreshToken` mirrors. -/
structure UserDoc where
  id : Nat
  username : String
  email : String
  fullName : String
  avatar : AssetRef
  coverImage : AssetRef
  password : String
  refreshToken : Option String
  emailToken : Option String
  isVerifiedEmail : Bool
deriving Repr, DecidableEq

/-- `User.findById`: first (unique) document with the given id. -/
def findUser (users : List UserDoc) (uid : Nat) : Option UserDoc :=
  users.find? (fun u => u.id == uid)

/-- `user.save()`: write back the document with the same id. -/
def saveUser (users : List UserDoc) (u : UserDoc) : List UserDoc :=
  users.map (fun x => if x.id == u.id then u else x)

/-- `generateAccessAndRefreshToken` from `src/controllers/user.controller.ts`
(lines 14-36): loads the user, mints an access and a refresh token (the minted
strings are oracle parameters `newAccess`/`newRefresh`, since `jwt.sign` is
external), persists the refresh token on the user and returns the pair.
`none` models the rejected promise (the function's `catch` wraps every
failure, including the user-not-found throw, into an `ApiError(500)`
rejection). -/
def generateAccessAndRefreshToken (users : List UserDoc) (userId : Nat)
    (newAccess newRefresh : String) :
    Option ((String × String) × List UserDoc) :=
  match findUser users userId with
  | none => none
  | some user =>
      some ((newAccess, newRefresh),
        saveUser users { user with refreshToken := some newRefresh })

/-- Result of a handler that may write several responses and mutate the user
collection: `sends` lists the status codes of every attempted
`response.status(..)` send in order (the first one is what the client
receives), `users` is the collection afterwards. -/
structure UserHandlerResult where
  sends : List Nat
  users : List UserDoc
deriving Repr, DecidableEq

/-- `refreshAccessToken` from `src/controllers/user.controller.ts`
(lines 310-372).  `incoming` is the refresh token from cookie or body;
`verifyRefresh` is the `jwt.verify` oracle (`some uid` when the token's
signature verifies and carries an `_id` claim, `none` when verification
throws or the `_id` claim is missing — both paths answer 401).
Note the source's stale-token branch (line 343) sends a 401 *without
returning*, so execution continues into token rotation; the embedding
keeps that control flow. -/
def refreshAccessToken (users : List UserDoc) (incoming : Option String)
    (verifyRefresh : String → Option Nat) (newAccess newRefresh : String) :
    UserHandlerResult :=
  match incoming with
  | none => ⟨[401], users⟩
  | some tok =>
    match verifyRefresh tok with
    | none => ⟨[401], users⟩
    | some uid =>
      match findUser users uid with
      | none => ⟨[401], users⟩
      | some user =>
        let staleSends := if some tok ≠ user.refreshToken then [401] else []
        match generateAccessAndRefreshToken users user.id newAccess newRefresh with
        | none => ⟨staleSends ++ [401], users⟩
        | some (_, users') => ⟨staleSends ++ [200], users'⟩

/-- `confirmEmail` from `src/controllers/user.controller.ts` (lines 166-208).
`verifyEmail` is the `jwt.verify` oracle for the email-token secret; when it
fails, `verifyEmailToken` throws an `ApiError(401)` which the outer request
boundary converts to a 401 response (the `asyncHandler` wrapper is not in the
sources; per the spec, all errors are caught at the outermost boundary and
turned into an error envelope).  Note the source's token-mismatch branch
(line 194) sends a 401 *without returning*, so execution continues into the
verification write; the embedding keeps that control flow.  The source then
sets `user.emailToken = ""` (the empty string, modelled `some ""`). -/
def confirmEmail (users : List UserDoc) (emailToken : Option String)
    (verifyEmail : String → Option Nat) : UserHandlerResult :=
  match emailToken with
  | none => ⟨[400], users⟩
  | some tok =>
    match verifyEmail tok with
    | none => ⟨[401], users⟩
    | some uid =>
      match findUser users uid with
      | none => ⟨[401], users⟩
      | some user =>
        if user.isVerifiedEmail then ⟨[400], users⟩
        else
          let mismatchSends := if some tok ≠ user.emailToken then [401] else []
          let user' := { user with isVerifiedEmail := true, emailToken := some "" }
          ⟨mismatchSends ++ [201], saveUser users user'⟩

/-- Concrete account used to exercise the stale-refresh-token and
email-confirmation paths: it stores refresh token `"r1"` and pending email
token `"t1"`. -/
def demoUser : UserDoc :=
  { id := 1
    username := "ana"
    email := "ana@x.com"
    fullName := "Ana"
    avatar := { url := "http://cdn/a.png", publicId := "av1" }
    coverImage := { url := "", publicId := "" }
    password := "hashed"
    refreshToken := some "r1"
    emailToken := some "t1"
    isVerifiedEmail := false }

/-- JWT oracle for the demo: the supplied (stale) token `"r0"` has a valid
signature and carries `_id = 1`. -/
def demoVerifyStale : String → Option Nat :=
  fun t => if t = "r0" then some 1 else none

/-- JWT oracle for the demo email token: `"t2"` verifies and refers to user 1
while the account currently stores `"t1"`. -/
def demoVerifyEmail : String → Option Nat :=
  fun t => if t = "t2" then some 1 else none

/-- A subscription edge document.  `toggleSubscription` creates these with
exactly the fields `subscriber` (the caller) and `channel`
(`src/controllers/subscription.controller.ts` lines 34-37), plus the `_id`
Mongo assigns. -/
structure SubscriptionDoc where
  id : Nat
  subscriber : Nat
  channel : Nat
deriving Repr, DecidableEq

/-- Mongo field-path resolution on a subscription document: the document's
fields are exactly `_id`, `subscriber` and `channel` (timestamps aside);
every other path is missing.  Aggregation expressions such as
`"$subscribers.subscribe"` resolve a path over each document and silently
skip documents where the path is missing. -/
def SubscriptionDoc.getField (e : SubscriptionDoc) (k : String) : Option Nat :=
  if k = "_id" then some e.id
  else if k = "subscriber" then some e.subscriber
  else if k = "channel" then some e.channel
  else none

/-- The subscriptions collection plus Mongo's fresh-`_id` supply. -/
structure SubDB where
  edges : List SubscriptionDoc
  nextId : Nat
deriving Repr, DecidableEq

/-- `toggleSubscription` from `src/controllers/subscription.controller.ts`
(lines 10-66): look the channel up (404 when absent), then look for the
caller's edge; absent → create it (`Subscription.create` inserts a fresh
document at the end of the collection), present → `deleteOne` on its `_id`.
The 500-branches model external DB write failures and do not arise for the
modelled always-succeeding store.  Returns the response status and the new
collection. -/
def toggleSubscription (users : List UserDoc) (callerId channelId : Nat)
    (db : SubDB) : Nat × SubDB :=
  match findUser users channelId with
  | none => (404, db)
  | some channel =>
    match db.edges.find?
        (fun e => e.subscriber == callerId && e.channel == channel.id) with
    | none =>
        (200, ⟨db.edges ++ [⟨db.nextId, callerId, channel.id⟩], db.nextId + 1⟩)
    | some sub =>
        (200, ⟨db.edges.filter (fun x => x.id != sub.id), db.nextId⟩)

/-- The `$lookup` stage of `getUserChannelProfile`
(`src/controllers/user.controller.ts` lines 552-557): all subscription
documents whose `channel` field equals the channel user's `_id`. -/
def channelSubscribers (db : SubDB) (channelUserId : Nat) : List SubscriptionDoc :=
  db.edges.filter (fun e => e.channel == channelUserId)

/-- The `isSubscribed` computation of `getUserChannelProfile`
(`src/controllers/user.controller.ts` line 577):
`$in: [request.user.id, "$subscribers.subscribe"]`.  The path `subscribe`
is resolved over each subscriber edge and missing occurrences are skipped,
exactly as Mongo's aggregation does. -/
def isSubscribedComputed (db : SubDB) (callerId channelUserId : Nat) : Bool :=
  ((channelSubscribers db channelUserId).filterMap
    (fun e => e.getField "subscribe")).contains callerId

/-- Membership of the caller's id in the channel's subscriber-edge set, read
off the `subscriber` field that `toggleSubscription` actually writes. -/
def subscriberEdgeExists (db : SubDB) (callerId channelUserId : Nat) : Bool :=
  (channelSubscribers db channelUserId).any (fun e => e.subscriber == callerId)

/-- A video document (`Video` model), restricted to the fields the modelled
handlers read or write. -/
structure VideoDoc where
  id : Nat
  title : String
  description : String
  videoFile : AssetRef
  thumbnail : AssetRef
  duration : Nat
  views : Nat
  isPublished : Bool
  owner : Nat
  createdAt : Nat
deriving Repr, DecidableEq

/-- `Video.findById`. -/
def findVideo (videos : List VideoDoc) (vid : Nat) : Option VideoDoc :=
  videos.find? (fun v => v.id == vid)

/-- `video.save()`: write back the document with the same id. -/
def saveVideo (videos : List VideoDoc) (v : VideoDoc) : List VideoDoc :=
  videos.map (fun x => if x.id == v.id then v else x)

/-- A like edge document.  The `Like` model's target is polymorphic: exactly
one of `video`, `comment`, `tweet` is populated per edge;
`toggleVideoLike` creates `{ video: videoId, likedBy: caller }`. -/
structure LikeDoc where
  id : Nat
  video : Option Nat
  comment : Option Nat
  tweet : Option Nat
  likedBy : Nat
deriving Repr, DecidableEq

/-- The likes collection plus Mongo's fresh-`_id` supply. -/
structure LikeDB where
  likes : List LikeDoc
  nextId : Nat
deriving Repr, DecidableEq

/-- `toggleVideoLike` from `src/controllers/dashboard.controller.ts`
(lines 134-185): look the video up (404 when absent), then look for the
caller's like edge on it; absent → create it, present → `deleteOne` on its
`_id`.  The 500-branches model external DB write failures and do not arise
for the modelled always-succeeding store. -/
def toggleVideoLike (videos : List VideoDoc) (callerId videoId : Nat)
    (db : LikeDB) : Nat × LikeDB :=
  match findVideo videos videoId with
  | none => (404, db)
  | some _ =>
    match db.likes.find?
        (fun l => l.video == some videoId && l.likedBy == callerId) with
    | none =>
        (200, ⟨db.likes ++ [⟨db.nextId, some videoId, none, none, callerId⟩],
          db.nextId + 1⟩)
    | some like =>
        (200, ⟨db.likes.filter (fun x => x.id != like.id), db.nextId⟩)

/-- Number of subscription edges for a given (subscriber, channel) pair. -/
def subCount (db : SubDB) (s c : Nat) : Nat :=
  db.edges.countP (fun e => e.subscriber == s && e.channel == c)

/-- Number of video-like edges for a given (liker, video) pair. -/
def likeCount (db : LikeDB) (a v : Nat) : Nat :=
  db.likes.countP (fun l => l.video == some v && l.likedBy == a)

/-- Well-formedness of the subscriptions collection: ids are below the fresh
supply and distinct (Mongo `_id` uniqueness), and each (subscriber, channel)
pair has at most one edge (the data model's per-pair uniqueness, which the
toggle protocol maintains). -/
def SubDB.WF (db : SubDB) : Prop :=
  (∀ e ∈ db.edges, e.id < db.nextId)
    ∧ (db.edges.map SubscriptionDoc.id).Nodup
    ∧ ∀ s c, subCount db s c ≤ 1

/-- Well-formedness of the likes collection, as for `SubDB.WF`. -/
def LikeDB.WF (db : LikeDB) : Prop :=
  (∀ l ∈ db.likes, l.id < db.nextId)
    ∧ (db.likes.map LikeDoc.id).Nodup
    ∧ ∀ a v, likeCount db a v ≤ 1

/-- Subscriptions collection obtained by caller 2 toggling a subscription on
channel 1 (the `demoUser` account) starting from an empty collection. -/
def demoSubDB : SubDB :=
  (toggleSubscription [demoUser] 2 1 ⟨[], 0⟩).2

/-- Concrete video used to exercise the like toggle and the video handlers. -/
def demoVideo : VideoDoc :=
  { id := 5
    title := "t"
    description := "d"
    videoFile := { url := "http://cdn/v.mp4", publicId := "vf1" }
    thumbnail := { url := "http://cdn/t.png", publicId := "th1" }
    duration := 10
    views := 0
    isPublished := true
    owner := 1
    createdAt := 0 }

/-- A playlist document (`Playlist` model): name, description, owning
account, and the ordered list of video references. -/
structure PlaylistDoc where
  id : Nat
  name : String
  description : String
  owner : Nat
  videos : List Nat
deriving Repr, DecidableEq

/-- `Playlist.findById`. -/
def findPlaylist (ps : List PlaylistDoc) (pid : Nat) : Option PlaylistDoc :=
  ps.find? (fun p => p.id == pid)

/-- `playList.save()`: write back the document with the same id. -/
def savePlaylist (ps : List PlaylistDoc) (p : PlaylistDoc) : List PlaylistDoc :=
  ps.map (fun x => if x.id == p.id then p else x)

/-- `createPlaylist` from `src/controllers/playlist.controller.ts`
(lines 11-37): name and description are required (the empty string models a
JS-falsy body field, absent or empty); on success a playlist owned by the
caller is created with an empty `videos` list. -/
def createPlaylist (ps : List PlaylistDoc) (nextId callerId : Nat)
    (name description : String) : Nat × List PlaylistDoc :=
  if name = "" ∨ description = "" then (400, ps)
  else (201, ps ++ [⟨nextId, name, description, callerId, []⟩])

/-- `addVideoToPlaylist` from `src/controllers/playlist.controller.ts`
(lines 157-212): playlist lookup (404), ownership (401), video lookup (404),
duplicate check (400), then push the video reference and save. -/
def addVideoToPlaylist (ps : List PlaylistDoc) (videos : List VideoDoc)
    (callerId playlistId videoId : Nat) : Nat × List PlaylistDoc :=
  match findPlaylist ps playlistId with
  | none => (404, ps)
  | some pl =>
    if pl.owner != callerId then (401, ps)
    else
      match findVideo videos videoId with
      | none => (404, ps)
      | some video =>
        if pl.videos.any (fun i => i == videoId) then (400, ps)
        else (200, savePlaylist ps { pl with videos := pl.videos ++ [video.id] })

/-- `removeVideoFromPlaylist` from `src/controllers/playlist.controller.ts`
(lines 214-273): playlist lookup (404), ownership (401), video lookup (404),
membership check (400 when absent), then filter the reference out and
save. -/
def removeVideoFromPlaylist (ps : List PlaylistDoc) (videos : List VideoDoc)
    (callerId playlistId videoId : Nat) : Nat × List PlaylistDoc :=
  match findPlaylist ps playlistId with
  | none => (404, ps)
  | some pl =>
    if pl.owner != callerId then (401, ps)
    else
      match findVideo videos videoId with
      | none => (404, ps)
      | some _ =>
        if !(pl.videos.any (fun i => i == videoId)) then (400, ps)
        else (200, savePlaylist ps
          { pl with videos := pl.videos.filter (fun i => i != videoId) })

/-- Concrete playlist used to exercise the duplicate-add rejection: owned by
caller 2, already containing video 5. -/
def demoPlaylist : PlaylistDoc :=
  { id := 7, name := "pl", description := "desc", owner := 2, videos := [5] }

/-- A comment document (`Comment` model). -/
structure CommentDoc where
  id : Nat
  content : String
  owner : Nat
  video : Nat
deriving Repr, DecidableEq

/-- `Comment.findById`. -/
def findComment (cs : List CommentDoc) (cid : Nat) : Option CommentDoc :=
  cs.find? (fun c => c.id == cid)

/-- A tweet document (`Tweet` model). -/
structure TweetDoc where
  id : Nat
  content : String
  owner : Nat
deriving Repr, DecidableEq

/-- `Tweet.findById`. -/
def findTweet (ts : List TweetDoc) (tid : Nat) : Option TweetDoc :=
  ts.find? (fun t => t.id == tid)

/-- `deleteVideo` from `src/controllers/video.controller.ts` (lines 308-345):
existence check (404), then ownership check (401), then best-effort remote
removal of the video file and thumbnail and `deleteOne`.  Returns the
response status, the remaining collection and the remote assets removed. -/
def deleteVideo (videos : List VideoDoc) (callerId videoId : Nat) :
    Nat × List VideoDoc × List String :=
  match findVideo videos videoId with
  | none => (404, videos, [])
  | some video =>
    if !(video.owner == callerId) then (401, videos, [])
    else
      (200, videos.filter (fun v => v.id != videoId),
        [video.videoFile.publicId, video.thumbnail.publicId])

/-- `deleteComment` from `src/controllers/comment.controller.ts`
(lines 166-202): existence check (404), then ownership check (401), then
`deleteOne`. -/
def deleteComment (cs : List CommentDoc) (callerId commentId : Nat) :
    Nat × List CommentDoc :=
  match findComment cs commentId with
  | none => (404, cs)
  | some comment =>
    if !(comment.owner == callerId) then (401, cs)
    else (200, cs.filter (fun c => c.id != commentId))

/-- `deleteTweet` from the tweet controller (lines 815-849 of the combined
user-controller source): existence check (404), then ownership check (401),
then `deleteOne`. -/
def deleteTweet (ts : List TweetDoc) (callerId tweetId : Nat) :
    Nat × List TweetDoc :=
  match findTweet ts tweetId with
  | none => (404, ts)
  | some tweet =>
    if !(tweet.owner == callerId) then (401, ts)
    else (200, ts.filter (fun t => t.id != tweetId))

/-- `deletePlaylist` from `src/controllers/playlist.controller.ts`
(lines 275-311): existence check (404), then ownership check (401), then
`deleteOne`. -/
def deletePlaylist (ps : List PlaylistDoc) (callerId playlistId : Nat) :
    Nat × List PlaylistDoc :=
  match findPlaylist ps playlistId with
  | none => (404, ps)
  | some pl =>
    if !(pl.owner == callerId) then (401, ps)
    else (200, ps.filter (fun p => p.id != playlistId))

/-- `updateVideo` from `src/controllers/video.controller.ts` (lines 199-245):
required-fields check (400; the empty string models a JS-falsy body field),
existence check (404), ownership check (401), then field overwrite and
save. -/
def updateVideo (videos : List VideoDoc) (callerId videoId : Nat)
    (title description : String) : Nat × List VideoDoc :=
  if title = "" ∨ description = "" then (400, videos)
  else
    match findVideo videos videoId with
    | none => (404, videos)
    | some video =>
      if !(video.owner == callerId) then (401, videos)
      else (200, saveVideo videos
        { video with title := title, description := description })

/-- `togglePublishStatus` from `src/controllers/video.controller.ts`
(lines 347-388): existence check (404), ownership check (401), then flip
`isPublished` and save. -/
def togglePublishStatus (videos : List VideoDoc) (callerId videoId : Nat) :
    Nat × List VideoDoc :=
  match findVideo videos videoId with
  | none => (404, videos)
  | some video =>
    if !(video.owner == callerId) then (401, videos)
    else (200, saveVideo videos
      { video with isPublished := !video.isPublished })

/-- `comment.save()`: write back the document with the same id. -/
def saveComment (cs : List CommentDoc) (c : CommentDoc) : List CommentDoc :=
  cs.map (fun x => if x.id == c.id then c else x)

/-- `updateComment` from `src/controllers/comment.controller.ts`
(lines 116-164): content check (400), existence check (404), ownership
check (401), then overwrite and save. -/
def updateComment (cs : List CommentDoc) (callerId commentId : Nat)
    (content : String) : Nat × List CommentDoc :=
  if content = "" then (400, cs)
  else
    match findComment cs commentId with
    | none => (404, cs)
    | some comment =>
      if !(comment.owner == callerId) then (401, cs)
      else (200, saveComment cs { comment with content := content })

/-- `tweet.save()`: write back the document with the same id. -/
def saveTweet (ts : List TweetDoc) (t : TweetDoc) : List TweetDoc :=
  ts.map (fun x => if x.id == t.id then t else x)

/-- `updateTweet` from the tweet controller (lines 771-813 of the combined
user-controller source): content check (400), existence check (404),
ownership check (401), then overwrite and save. -/
def updateTweet (ts : List TweetDoc) (callerId tweetId : Nat)
    (content : String) : Nat × List TweetDoc :=
  if content = "" then (400, ts)
  else
    match findTweet ts tweetId with
    | none => (404, ts)
    | some tweet =>
      if !(tweet.owner == callerId) then (401, ts)
      else (200, saveTweet ts { tweet with content := content })

/-- `updatePlaylist` from `src/controllers/playlist.controller.ts`
(lines 313-358): required-fields check (400), existence check (404),
ownership check (401), then overwrite and save. -/
def updatePlaylist (ps : List PlaylistDoc) (callerId playlistId : Nat)
    (name description : String) : Nat × List PlaylistDoc :=
  if name = "" ∨ description = "" then (400, ps)
  else
    match findPlaylist ps playlistId with
    | none => (404, ps)
    | some pl =>
      if !(pl.owner == callerId) then (401, ps)
      else (200, savePlaylist ps
        { pl with name := name, description := description })

/-- Concrete comment owned by account 1, used to exercise the ownership
check. -/
def demoComment : CommentDoc :=
  { id := 3, content := "nice", owner := 1, video := 5 }

/-- Concrete tweet owned by account 1, used to exercise the ownership
check. -/
def demoTweet : TweetDoc :=
  { id := 4, content := "hello", owner := 1 }

/-- `updateUserAvatar` from `src/controllers/user.controller.ts`
(lines 449-487), for the authenticated user document `user`.  `file` is the
uploaded temp file's path (`none`: no file, 400); `transport` is the
Cloudinary transport oracle fed to `uploadOnCloudinary`.  Returns the
response status, the remote public ids removed via `removeFromCloudinary`,
and the user document after `findByIdAndUpdate`.  On a `null` upload result
the source dereferences `avatar.url` and throws; the request boundary turns
that into an error response with no removal and no update — modelled, like
the explicit `!avatar.url` branch, as the 500 outcome.  The previous remote
avatar is removed only after the upload result passed the url check, and
only when a previous public id exists. -/
def updateUserAvatar (user : UserDoc) (file : Option String)
    (transport : Option CloudAsset) : Nat × List String × UserDoc :=
  match file with
  | none => (400, [], user)
  | some path =>
    match (uploadOnCloudinary path transport).1 with
    | none => (500, [], user)
    | some avatar =>
      if avatar.url = "" then (500, [], user)
      else
        ((200,
          if user.avatar.publicId ≠ "" then [user.avatar.publicId] else [],
          { user with
              avatar := { url := avatar.url, publicId := avatar.public_id } }))

/-- `updateUserCoverImage` from `src/controllers/user.controller.ts`
(lines 489-533): identical to the avatar flow, on the cover image field. -/
def updateUserCoverImage (user : UserDoc) (file : Option String)
    (transport : Option CloudAsset) : Nat × List String × UserDoc :=
  match file with
  | none => (400, [], user)
  | some path =>
    match (uploadOnCloudinary path transport).1 with
    | none => (500, [], user)
    | some cover =>
      if cover.url = "" then (500, [], user)
      else
        ((200,
          if user.coverImage.publicId ≠ "" then [user.coverImage.publicId] else [],
          { user with
              coverImage := { url := cover.url, publicId := cover.public_id } }))

/-- `updateVideoThumbnail` from `src/controllers/video.controller.ts`
(lines 247-306): file check (400), existence (404), ownership (401), then
upload of the new thumbnail — and then, *before* the upload result is
checked, `removeFromCloudinary(video.thumbnail.publicId)` runs
unconditionally (line 279); only afterwards does `!thumbnail?.url` answer
500.  Returns status, removed remote public ids, and the collection after
the save. -/
def updateVideoThumbnail (videos : List VideoDoc) (callerId videoId : Nat)
    (file : Option String) (transport : Option CloudAsset) :
    Nat × List String × List VideoDoc :=
  match file with
  | none => (400, [], videos)
  | some path =>
    match findVideo videos videoId with
    | none => (404, [], videos)
    | some video =>
      if !(video.owner == callerId) then (401, [], videos)
      else
        match (uploadOnCloudinary path transport).1 with
        | none => (500, [video.thumbnail.publicId], videos)
        | some t =>
          if t.url = "" then (500, [video.thumbnail.publicId], videos)
          else
            ((200, [video.thumbnail.publicId],
              saveVideo videos { video with
                thumbnail := { url := t.url, publicId := t.public_id } }))

/-- Substring test: the source filters with
`{ $regex: new RegExp(query) }`, which for a literal pattern matches the
pattern anywhere in the subject string. -/
def strContains (haystack needle : String) : Bool :=
  decide (needle.data <:+: haystack.data)

/-- The aggregation of `getAllVideos` from
`src/controllers/video.controller.ts` (lines 75-141): optional owner match,
optional free-text match on title or description, dynamic sort (the sort
field is the oracle `sortKey`; Mongo sorts ascending for `sortType = 1`,
descending otherwise), 1-based pagination via `$skip`/`$limit`, then the
owner `$lookup` with `$unwind` (which drops videos whose owner no longer
exists), inlining the owner document. -/
def getAllVideosResult (videos : List VideoDoc) (users : List UserDoc)
    (userId : Option Nat) (query : Option String)
    (sortKey : VideoDoc → Nat) (sortType : Int) (page limit : Nat) :
    List (VideoDoc × UserDoc) :=
  let m1 : List VideoDoc := match userId with
    | some uid => videos.filter (fun v => v.owner == uid)
    | none => videos
  let m2 : List VideoDoc := match query with
    | some q => m1.filter
        (fun v => strContains v.title q || strContains v.description q)
    | none => m1
  let sorted : List VideoDoc := m2.mergeSort (fun a b =>
    if sortType = 1 then sortKey a ≤ sortKey b else sortKey b ≤ sortKey a)
  let paged : List VideoDoc := (sorted.drop ((page - 1) * limit)).take limit
  paged.filterMap (fun v => (findUser users v.owner).map (fun u => (v, u)))

/-- `getAllVideos` (same lines): 404 when the aggregation result is empty,
200 with the list otherwise. -/
def getAllVideos (videos : List VideoDoc) (users : List UserDoc)
    (userId : Option Nat) (query : Option String)
    (sortKey : VideoDoc → Nat) (sortType : Int) (page limit : Nat) :
    Nat × List (VideoDoc × UserDoc) :=
  let vs := getAllVideosResult videos users userId query sortKey sortType
    page limit
  if vs.length < 1 then (404, vs) else (200, vs)

/-- The aggregation of `getUserTweets` (tweet controller, lines 717-769 of
the combined user-controller source): match on owner, `$lookup` of the
owner with `$unwind`. -/
def getUserTweetsResult (ts : List TweetDoc) (users : List UserDoc)
    (userId : Nat) : List (TweetDoc × UserDoc) :=
  (ts.filter (fun t => t.owner == userId)).filterMap
    (fun t => (findUser users t.owner).map (fun u => (t, u)))

/-- `getUserTweets`: 404 when the user is absent, 404 when the aggregation
result is empty, 200 with the list otherwise. -/
def getUserTweets (ts : List TweetDoc) (users : List UserDoc)
    (userId : Nat) : Nat × List (TweetDoc × UserDoc) :=
  match findUser users userId with
  | none => (404, [])
  | some _ =>
    let tweets := getUserTweetsResult ts users userId
    if tweets.length < 1 then (404, tweets) else (200, tweets)

/-- The aggregation of `getLikedVideos` from
`src/controllers/dashboard.controller.ts` (lines 297-344): match like edges
of the caller whose `video` field exists, `$lookup` the video (with its
owner inlined via a nested `$lookup`/`$unwind`, dropping videos whose owner
is missing), `$unwind` the video (dropping likes whose video is missing),
and `$replaceRoot` to the video. -/
def getLikedVideosResult (likes : List LikeDoc) (videos : List VideoDoc)
    (users : List UserDoc) (callerId : Nat) : List (VideoDoc × UserDoc) :=
  (likes.filter (fun l => l.likedBy == callerId && l.video.isSome)).filterMap
    (fun l =>
      match l.video with
      | none => none
      | some vid =>
        match findVideo videos vid with
        | none => none
        | some v => (findUser users v.owner).map (fun u => (v, u)))

/-- `getLikedVideos` (same lines, through line 360): 404 when the
aggregation result is empty, 200 with the list otherwise. -/
def getLikedVideos (likes : List LikeDoc) (videos : List VideoDoc)
    (users : List UserDoc) (callerId : Nat) :
    Nat × List (VideoDoc × UserDoc) :=
  let vs := getLikedVideosResult likes videos users callerId
  if vs.length < 1 then (404, vs) else (200, vs)

end Tube

namespace Tube

/-- CLAIM C9: an envelope built with status `s` has `success = true`
exactly when `s < 400`; at or above 400 it is `false`. -/
theorem apiResponse_success_iff (α : Type) (s : Nat) (d : α) (m : String) :
    ((ApiResponse.make s d m).success = true ↔ s < 400)
      ∧ ((ApiResponse.make s d m).success = false ↔ 400 ≤ s) := by
  constructor
  · simp [ApiResponse.make]
  · simp [ApiResponse.make]

/-- CLAIM C8: for a non-empty local path, `uploadOnCloudinary` deletes the
local temp file on the success path and on the transport-failure path alike,
and on transport failure it returns `none` (the JS `null`) instead of
raising. -/
theorem uploadOnCloudinary_cleanup (p : String) (t : Option CloudAsset)
    (hp : p ≠ "") :
    (uploadOnCloudinary p t).2 = [p]
      ∧ (t = none → (uploadOnCloudinary p t).1 = none) := by
  constructor
  · cases t <;> simp [uploadOnCloudinary, hp]
  · intro ht; subst ht; simp [uploadOnCloudinary, hp]

/-- Witness for C8 at the concrete path `"/tmp/a.png"` with a failing
transport. -/
theorem uploadOnCloudinary_cleanup_witness :
    (uploadOnCloudinary "/tmp/a.png" none).2 = ["/tmp/a.png"]
      ∧ (none = (none : Option CloudAsset) →
          (uploadOnCloudinary "/tmp/a.png" none).1 = none) :=
  uploadOnCloudinary_cleanup "/tmp/a.png" none (by decide)

/-- CLAIM C1 (code bug, evaluated at the failing input): the account stores
refresh token `"r1"`; a refresh request supplies the stale token `"r0"`,
which verifies and references the account.  The handler does send 401 first
(the client receives Unauthorized), but — the stale-token branch lacking a
`return` — it still rotates the stored refresh token to the freshly minted
`"r2"`, contradicting the claim that the stored token is unchanged and no
new pair is issued. -/
theorem refreshAccessToken_stale_still_rotates :
    ((refreshAccessToken [demoUser] (some "r0") demoVerifyStale "a2" "r2").sends
        = [401, 200])
      ∧ ((refreshAccessToken [demoUser] (some "r0") demoVerifyStale "a2" "r2").users
        = [{ demoUser with refreshToken := some "r2" }]) := by
  constructor
  · rfl
  · rfl

/-- CLAIM C3 (code bug, evaluated at the failing input): caller 2 subscribes
to channel 1 via `toggleSubscription`, so an edge with
`subscriber = 2, channel = 1` exists, yet the `isSubscribed` computation of
`getUserChannelProfile` yields `false`, because it resolves the path
`subscribe` — a field no subscription document carries — instead of
`subscriber`. -/
theorem isSubscribed_ignores_existing_edge :
    subscriberEdgeExists demoSubDB 2 1 = true
      ∧ isSubscribedComputed demoSubDB 2 1 = false :=
  ⟨rfl, rfl⟩

/-- Splitting a count over the `deleteOne`-by-id filter: when ids are
distinct and `e` is in the collection, deleting by `e.id` removes exactly
the contribution of `e`. -/
theorem countP_filter_ne_id_sub (p : SubscriptionDoc → Bool)
    (l : List SubscriptionDoc) (e : SubscriptionDoc)
    (hnd : (l.map SubscriptionDoc.id).Nodup) (he : e ∈ l) :
    l.countP p
      = (l.filter (fun x => x.id != e.id)).countP p
        + (if p e then 1 else 0) := by
  induction l with
  | nil => cases he
  | cons a t ih =>
    rw [List.map_cons, List.nodup_cons] at hnd
    obtain ⟨hka, hndt⟩ := hnd
    rcases List.mem_cons.mp he with rfl | het
    · have hfe : t.filter (fun x => x.id != e.id) = t := by
        rw [List.filter_eq_self]
        intro x hx
        have hne : x.id ≠ e.id := fun hxe =>
          hka (hxe ▸ List.mem_map_of_mem SubscriptionDoc.id hx)
        simpa using hne
      rw [List.countP_cons, List.filter_cons]
      simp [hfe]
    · have hane : (a.id != e.id) = true := by
        have h : a.id ≠ e.id := fun hh =>
          hka (hh ▸ List.mem_map_of_mem SubscriptionDoc.id het)
        simpa using h
      rw [List.countP_cons, List.filter_cons]
      simp only [hane, if_true]
      rw [List.countP_cons, ih hndt het]
      omega

/-- Effect of one subscription toggle on the per-pair edge counts: the
(caller, channel) count flips between 0 and 1, every other pair's count is
untouched. -/
theorem subCount_toggle (users : List UserDoc) (callerId channelId : Nat)
    (db : SubDB) (ch : UserDoc) (hu : findUser users channelId = some ch)
    (hwf : SubDB.WF db) (s c : Nat) :
    subCount (toggleSubscription users callerId channelId db).2 s c =
      if s = callerId ∧ c = channelId then 1 - subCount db s c
      else subCount db s c := by
  obtain ⟨hbound, hnd, hcount⟩ := hwf
  have hchid : ch.id = channelId := by
    have h0 : List.find? (fun u => u.id == channelId) users = some ch := by
      simpa [findUser] using hu
    simpa using List.find?_some h0
  subst hchid
  cases hfind : db.edges.find?
      (fun e => e.subscriber == callerId && e.channel == ch.id) with
  | none =>
    have habs : ∀ x ∈ db.edges,
        ¬((x.subscriber == callerId && x.channel == ch.id) = true) := by
      intro x hx
      simpa using List.find?_eq_none.mp hfind x hx
    have hzero : db.edges.countP
        (fun e => e.subscriber == callerId && e.channel == ch.id) = 0 :=
      List.countP_eq_zero.mpr habs
    simp only [toggleSubscription, hu, hfind, subCount, List.countP_append,
      List.countP_cons, List.countP_nil]
    by_cases hsc : s = callerId ∧ c = ch.id
    · obtain ⟨h1, h2⟩ := hsc
      rw [h1, h2]
      simp [hzero]
    · rw [if_neg hsc]
      rcases not_and_or.mp hsc with h | h
      · have hne : callerId ≠ s := fun hh => h hh.symm
        simp [hne]
      · have hne : ch.id ≠ c := fun hh => h hh.symm
        simp [hne]
  | some sub =>
    have hmem : sub ∈ db.edges := List.mem_of_find?_eq_some hfind
    have hpred := List.find?_some hfind
    rw [Bool.and_eq_true, beq_iff_eq, beq_iff_eq] at hpred
    obtain ⟨hs1, hs2⟩ := hpred
    have hkey := countP_filter_ne_id_sub
      (fun e => e.subscriber == s && e.channel == c) db.edges sub hnd hmem
    simp only [toggleSubscription, hu, hfind, subCount]
    by_cases hsc : s = callerId ∧ c = ch.id
    · rw [if_pos hsc]
      obtain ⟨h1, h2⟩ := hsc
      rw [h1, h2] at hkey ⊢
      have hq : ((sub.subscriber == callerId && sub.channel == ch.id)) = true := by
        simp [hs1, hs2]
      simp only [hq, if_true] at hkey
      have hc1 := hcount callerId ch.id
      simp only [subCount] at hc1
      omega
    · rw [if_neg hsc]
      have hq : ((sub.subscriber == s && sub.channel == c)) = false := by
        rw [hs1, hs2]
        rcases not_and_or.mp hsc with h | h
        · have hne : callerId ≠ s := fun hh => h hh.symm
          simp [hne]
        · have hne : ch.id ≠ c := fun hh => h hh.symm
          simp [hne]
      simp only [hq] at hkey
      simp at hkey
      omega

/-- One subscription toggle preserves well-formedness of the collection. -/
theorem toggleSubscription_wf (users : List UserDoc) (callerId channelId : Nat)
    (db : SubDB) (hwf : SubDB.WF db) :
    SubDB.WF (toggleSubscription users callerId channelId db).2 := by
  obtain ⟨hbound, hnd, hcount⟩ := hwf
  cases hu : findUser users channelId with
  | none =>
    simp only [toggleSubscription, hu]
    exact ⟨hbound, hnd, hcount⟩
  | some ch =>
    have hcnt : ∀ s c,
        subCount (toggleSubscription users callerId channelId db).2 s c ≤ 1 := by
      intro s c
      rw [subCount_toggle users callerId channelId db ch hu ⟨hbound, hnd, hcount⟩ s c]
      split
      · exact Nat.sub_le 1 _
      · exact hcount s c
    cases hfind : db.edges.find?
        (fun e => e.subscriber == callerId && e.channel == ch.id) with
    | none =>
      refine ⟨?_, ?_, hcnt⟩
      · simp only [toggleSubscription, hu, hfind]
        intro e he
        rcases List.mem_append.mp he with h | h
        · exact Nat.lt_succ_of_lt (hbound e h)
        · rcases List.mem_singleton.mp h with rfl
          exact Nat.lt_succ_self _
      · simp only [toggleSubscription, hu, hfind, List.map_append]
        refine List.Nodup.append hnd (List.nodup_singleton _) ?_
        intro x hx hx2
        simp only [List.map_cons, List.map_nil, List.mem_singleton] at hx2
        subst hx2
        rcases List.mem_map.mp hx with ⟨e, hemem, heid⟩
        have := hbound e hemem
        omega
    | some sub =>
      refine ⟨?_, ?_, hcnt⟩
      · simp only [toggleSubscription, hu, hfind]
        intro e he
        exact hbound e (List.mem_of_mem_filter he)
      · simp only [toggleSubscription, hu, hfind]
        exact List.Nodup.sublist ((List.filter_sublist _).map _) hnd

/-- Toggling the same subscription twice restores every (subscriber, channel)
pair count to its original value. -/
theorem toggleSubscription_twice (users : List UserDoc)
    (callerId channelId : Nat) (db : SubDB) (ch : UserDoc)
    (hu : findUser users channelId = some ch) (hwf : SubDB.WF db) (s c : Nat) :
    subCount (toggleSubscription users callerId channelId
        (toggleSubscription users callerId channelId db).2).2 s c
      = subCount db s c := by
  have hwf1 := toggleSubscription_wf users callerId channelId db hwf
  rw [subCount_toggle users callerId channelId _ ch hu hwf1 s c,
    subCount_toggle users callerId channelId db ch hu hwf s c]
  have hc := hwf.2.2 s c
  split
  · omega
  · rfl

/-- Toggling a subscription whose edge is absent creates exactly one edge for
the (caller, channel) pair. -/
theorem toggleSubscription_once (users : List UserDoc)
    (callerId channelId : Nat) (db : SubDB) (ch : UserDoc)
    (hu : findUser users channelId = some ch) (hwf : SubDB.WF db)
    (habs : subCount db callerId channelId = 0) :
    subCount (toggleSubscription users callerId channelId db).2
      callerId channelId = 1 := by
  rw [subCount_toggle users callerId channelId db ch hu hwf callerId channelId,
    if_pos ⟨rfl, rfl⟩, habs]

/-- Like-collection analogue of `countP_filter_ne_id_sub`. -/
theorem countP_filter_ne_id_like (p : LikeDoc → Bool)
    (l : List LikeDoc) (e : LikeDoc)
    (hnd : (l.map LikeDoc.id).Nodup) (he : e ∈ l) :
    l.countP p
      = (l.filter (fun x => x.id != e.id)).countP p
        + (if p e then 1 else 0) := by
  induction l with
  | nil => cases he
  | cons a t ih =>
    rw [List.map_cons, List.nodup_cons] at hnd
    obtain ⟨hka, hndt⟩ := hnd
    rcases List.mem_cons.mp he with rfl | het
    · have hfe : t.filter (fun x => x.id != e.id) = t := by
        rw [List.filter_eq_self]
        intro x hx
        have hne : x.id ≠ e.id := fun hxe =>
          hka (hxe ▸ List.mem_map_of_mem LikeDoc.id hx)
        simpa using hne
      rw [List.countP_cons, List.filter_cons]
      simp [hfe]
    · have hane : (a.id != e.id) = true := by
        have h : a.id ≠ e.id := fun hh =>
          hka (hh ▸ List.mem_map_of_mem LikeDoc.id het)
        simpa using h
      rw [List.countP_cons, List.filter_cons]
      simp only [hane, if_true]
      rw [List.countP_cons, ih hndt het]
      omega

/-- Effect of one video-like toggle on the per-pair like counts: the
(caller, video) count flips between 0 and 1, every other pair's count is
untouched. -/
theorem likeCount_toggle (videos : List VideoDoc) (callerId videoId : Nat)
    (db : LikeDB) (vd : VideoDoc) (hv : findVideo videos videoId = some vd)
    (hwf : LikeDB.WF db) (a v : Nat) :
    likeCount (toggleVideoLike videos callerId videoId db).2 a v =
      if a = callerId ∧ v = videoId then 1 - likeCount db a v
      else likeCount db a v := by
  obtain ⟨hbound, hnd, hcount⟩ := hwf
  cases hfind : db.likes.find?
      (fun l => l.video == some videoId && l.likedBy == callerId) with
  | none =>
    have habs : ∀ x ∈ db.likes,
        ¬((x.video == some videoId && x.likedBy == callerId) = true) := by
      intro x hx
      simpa using List.find?_eq_none.mp hfind x hx
    have hzero : db.likes.countP
        (fun l => l.video == some videoId && l.likedBy == callerId) = 0 :=
      List.countP_eq_zero.mpr habs
    simp only [toggleVideoLike, hv, hfind, likeCount, List.countP_append,
      List.countP_cons, List.countP_nil]
    by_cases hsc : a = callerId ∧ v = videoId
    · obtain ⟨h1, h2⟩ := hsc
      rw [h1, h2]
      simp [hzero]
    · rw [if_neg hsc]
      rcases not_and_or.mp hsc with h | h
      · have hne : callerId ≠ a := fun hh => h hh.symm
        simp [hne]
      · have hne : videoId ≠ v := fun hh => h hh.symm
        simp [hne]
  | some lk =>
    have hmem : lk ∈ db.likes := List.mem_of_find?_eq_some hfind
    have hpred := List.find?_some hfind
    rw [Bool.and_eq_true, beq_iff_eq, beq_iff_eq] at hpred
    obtain ⟨hs1, hs2⟩ := hpred
    have hkey := countP_filter_ne_id_like
      (fun l => l.video == some v && l.likedBy == a) db.likes lk hnd hmem
    simp only [toggleVideoLike, hv, hfind, likeCount]
    by_cases hsc : a = callerId ∧ v = videoId
    · rw [if_pos hsc]
      obtain ⟨h1, h2⟩ := hsc
      rw [h1, h2] at hkey ⊢
      have hq : ((lk.video == some videoId && lk.likedBy == callerId)) = true := by
        simp [hs1, hs2]
      simp only [hq, if_true] at hkey
      have hc1 := hcount callerId videoId
      simp only [likeCount] at hc1
      omega
    · rw [if_neg hsc]
      have hq : ((lk.video == some v && lk.likedBy == a)) = false := by
        rw [hs1, hs2]
        rcases not_and_or.mp hsc with h | h
        · have hne : callerId ≠ a := fun hh => h hh.symm
          simp [hne]
        · have hne : videoId ≠ v := fun hh => h hh.symm
          simp [hne]
      simp only [hq] at hkey
      simp at hkey
      omega

/-- One video-like toggle preserves well-formedness of the collection. -/
theorem toggleVideoLike_wf (videos : List VideoDoc) (callerId videoId : Nat)
    (db : LikeDB) (hwf : LikeDB.WF db) :
    LikeDB.WF (toggleVideoLike videos callerId videoId db).2 := by
  obtain ⟨hbound, hnd, hcount⟩ := hwf
  cases hv : findVideo videos videoId with
  | none =>
    simp only [toggleVideoLike, hv]
    exact ⟨hbound, hnd, hcount⟩
  | some vd =>
    have hcnt : ∀ a v,
        likeCount (toggleVideoLike videos callerId videoId db).2 a v ≤ 1 := by
      intro a v
      rw [likeCount_toggle videos callerId videoId db vd hv ⟨hbound, hnd, hcount⟩ a v]
      split
      · exact Nat.sub_le 1 _
      · exact hcount a v
    cases hfind : db.likes.find?
        (fun l => l.video == some videoId && l.likedBy == callerId) with
    | none =>
      refine ⟨?_, ?_, hcnt⟩
      · simp only [toggleVideoLike, hv, hfind]
        intro e he
        rcases List.mem_append.mp he with h | h
        · exact Nat.lt_succ_of_lt (hbound e h)
        · rcases List.mem_singleton.mp h with rfl
          exact Nat.lt_succ_self _
      · simp only [toggleVideoLike, hv, hfind, List.map_append]
        refine List.Nodup.append hnd (List.nodup_singleton _) ?_
        intro x hx hx2
        simp only [List.map_cons, List.map_nil, List.mem_singleton] at hx2
        subst hx2
        rcases List.mem_map.mp hx with ⟨e, hemem, heid⟩
        have := hbound e hemem
        omega
    | some lk =>
      refine ⟨?_, ?_, hcnt⟩
      · simp only [toggleVideoLike, hv, hfind]
        intro e he
        exact hbound e (List.mem_of_mem_filter he)
      · simp only [toggleVideoLike, hv, hfind]
        exact List.Nodup.sublist ((List.filter_sublist _).map _) hnd

/-- Toggling the same video like twice restores every (liker, video) pair
count to its original value. -/
theorem toggleVideoLike_twice (videos : List VideoDoc)
    (callerId videoId : Nat) (db : LikeDB) (vd : VideoDoc)
    (hv : findVideo videos videoId = some vd) (hwf : LikeDB.WF db) (a v : Nat) :
    likeCount (toggleVideoLike videos callerId videoId
        (toggleVideoLike videos callerId videoId db).2).2 a v
      = likeCount db a v := by
  have hwf1 := toggleVideoLike_wf videos callerId videoId db hwf
  rw [likeCount_toggle videos callerId videoId _ vd hv hwf1 a v,
    likeCount_toggle videos callerId videoId db vd hv hwf a v]
  have hc := hwf.2.2 a v
  split
  · omega
  · rfl

/-- Toggling a video like whose edge is absent creates exactly one edge for
the (caller, video) pair. -/
theorem toggleVideoLike_once (videos : List VideoDoc)
    (callerId videoId : Nat) (db : LikeDB) (vd : VideoDoc)
    (hv : findVideo videos videoId = some vd) (hwf : LikeDB.WF db)
    (habs : likeCount db callerId videoId = 0) :
    likeCount (toggleVideoLike videos callerId videoId db).2
      callerId videoId = 1 := by
  rw [likeCount_toggle videos callerId videoId db vd hv hwf callerId videoId,
    if_pos ⟨rfl, rfl⟩, habs]

/-- CLAIM C4: for an authenticated caller and an existing target, toggling a
subscription or a video like is self-inverse: on a well-formed edge
collection (distinct ids, at most one edge per (actor, target) pair — the
invariant every reachable collection satisfies), toggling twice restores
every (actor, target) pair's edge count, and toggling once from the
edge-absent state creates exactly one edge for that pair. -/
theorem toggle_self_inverse
    (users : List UserDoc) (videos : List VideoDoc)
    (callerId channelId videoId : Nat) (ch : UserDoc) (vd : VideoDoc)
    (sdb : SubDB) (ldb : LikeDB)
    (hu : findUser users channelId = some ch)
    (hv : findVideo videos videoId = some vd)
    (hswf : SubDB.WF sdb) (hlwf : LikeDB.WF ldb) :
    (∀ s c, subCount (toggleSubscription users callerId channelId
        (toggleSubscription users callerId channelId sdb).2).2 s c
      = subCount sdb s c)
    ∧ (subCount sdb callerId channelId = 0 →
        subCount (toggleSubscription users callerId channelId sdb).2
          callerId channelId = 1)
    ∧ (∀ a v, likeCount (toggleVideoLike videos callerId videoId
        (toggleVideoLike videos callerId videoId ldb).2).2 a v
      = likeCount ldb a v)
    ∧ (likeCount ldb callerId videoId = 0 →
        likeCount (toggleVideoLike videos callerId videoId ldb).2
          callerId videoId = 1) :=
  ⟨fun s c => toggleSubscription_twice users callerId channelId sdb ch hu hswf s c,
   fun habs => toggleSubscription_once users callerId channelId sdb ch hu hswf habs,
   fun a v => toggleVideoLike_twice videos callerId videoId ldb vd hv hlwf a v,
   fun habs => toggleVideoLike_once videos callerId videoId ldb vd hv hlwf habs⟩

/-- Witness for C4: caller 2 toggling on channel 1 / video 5 from empty edge
collections. -/
theorem toggle_self_inverse_witness :
    subCount (toggleSubscription [demoUser] 2 1
        (toggleSubscription [demoUser] 2 1 ⟨[], 0⟩).2).2 2 1
      = subCount ⟨[], 0⟩ 2 1
    ∧ subCount (toggleSubscription [demoUser] 2 1 ⟨[], 0⟩).2 2 1 = 1
    ∧ likeCount (toggleVideoLike [demoVideo] 2 5
        (toggleVideoLike [demoVideo] 2 5 ⟨[], 0⟩).2).2 2 5
      = likeCount ⟨[], 0⟩ 2 5
    ∧ likeCount (toggleVideoLike [demoVideo] 2 5 ⟨[], 0⟩).2 2 5 = 1 := by
  have hswf : SubDB.WF ⟨[], 0⟩ :=
    ⟨fun e he => absurd he (List.not_mem_nil e), List.nodup_nil,
      fun s c => Nat.zero_le 1⟩
  have hlwf : LikeDB.WF ⟨[], 0⟩ :=
    ⟨fun e he => absurd he (List.not_mem_nil e), List.nodup_nil,
      fun a v => Nat.zero_le 1⟩
  have h := toggle_self_inverse [demoUser] [demoVideo] 2 1 5 demoUser demoVideo
    ⟨[], 0⟩ ⟨[], 0⟩ rfl rfl hswf hlwf
  exact ⟨h.1 2 1, h.2.1 rfl, h.2.2.1 2 5, h.2.2.2 rfl⟩

/-- The playlist collection after `addVideoToPlaylist` is either unchanged
(an error branch) or the saved playlist with the video pushed, the latter
only when the playlist and video exist and the duplicate check passed. -/
theorem addVideo_result (ps : List PlaylistDoc) (videos : List VideoDoc)
    (callerId playlistId videoId : Nat) :
    (addVideoToPlaylist ps videos callerId playlistId videoId).2 = ps
    ∨ ∃ pl video, findPlaylist ps playlistId = some pl
        ∧ findVideo videos videoId = some video
        ∧ pl.videos.any (fun i => i == videoId) = false
        ∧ (addVideoToPlaylist ps videos callerId playlistId videoId).2
          = savePlaylist ps { pl with videos := pl.videos ++ [video.id] } := by
  unfold addVideoToPlaylist
  split
  · exact Or.inl rfl
  next pl hfp =>
    split
    · exact Or.inl rfl
    · split
      · exact Or.inl rfl
      next video hfv =>
        split
        · exact Or.inl rfl
        next hany =>
          have hany' : pl.videos.any (fun i => i == videoId) = false := by
            cases h : pl.videos.any (fun i => i == videoId)
            · rfl
            · exact absurd h hany
          exact Or.inr ⟨pl, video, hfp, hfv, hany', rfl⟩

/-- The playlist collection after `removeVideoFromPlaylist` is either
unchanged or the saved playlist with the video filtered out. -/
theorem removeVideo_result (ps : List PlaylistDoc) (videos : List VideoDoc)
    (callerId playlistId videoId : Nat) :
    (removeVideoFromPlaylist ps videos callerId playlistId videoId).2 = ps
    ∨ ∃ pl, findPlaylist ps playlistId = some pl
        ∧ (removeVideoFromPlaylist ps videos callerId playlistId videoId).2
          = savePlaylist ps
              { pl with videos := pl.videos.filter (fun i => i != videoId) } := by
  unfold removeVideoFromPlaylist
  split
  · exact Or.inl rfl
  next pl hfp =>
    split
    · exact Or.inl rfl
    · split
      · exact Or.inl rfl
      · split
        · exact Or.inl rfl
        · exact Or.inr ⟨pl, hfp, rfl⟩

/-- CLAIM C5: a playlist's video list never holds a duplicate reference.
The no-duplicate invariant is preserved by `createPlaylist`,
`addVideoToPlaylist` and `removeVideoFromPlaylist`, and adding a video the
(existing) playlist of the owner already contains answers 400 and leaves the
collection — in particular the playlist's video-list length — unchanged. -/
theorem playlist_no_duplicates
    (ps : List PlaylistDoc) (videos : List VideoDoc)
    (nextId callerId playlistId videoId : Nat) (name description : String)
    (hinv : ∀ p ∈ ps, p.videos.Nodup) :
    (∀ p ∈ (createPlaylist ps nextId callerId name description).2,
        p.videos.Nodup)
    ∧ (∀ p ∈ (addVideoToPlaylist ps videos callerId playlistId videoId).2,
        p.videos.Nodup)
    ∧ (∀ p ∈ (removeVideoFromPlaylist ps videos callerId playlistId videoId).2,
        p.videos.Nodup)
    ∧ (∀ pl, findPlaylist ps playlistId = some pl → pl.owner = callerId →
        (∃ vd, findVideo videos videoId = some vd) → videoId ∈ pl.videos →
          (addVideoToPlaylist ps videos callerId playlistId videoId).1 = 400
          ∧ (addVideoToPlaylist ps videos callerId playlistId videoId).2
            = ps) := by
  have hsave : ∀ (pl' : PlaylistDoc), pl'.videos.Nodup →
      ∀ p ∈ savePlaylist ps pl', p.videos.Nodup := by
    intro pl' hpl' p hp
    rcases List.mem_map.mp hp with ⟨x, hx, hxeq⟩
    by_cases hid : (x.id == pl'.id) = true
    · rw [if_pos hid] at hxeq
      subst hxeq
      exact hpl'
    · rw [if_neg hid] at hxeq
      subst hxeq
      exact hinv x hx
  refine ⟨?_, ?_, ?_, ?_⟩
  · by_cases hb : name = "" ∨ description = ""
    · simp only [createPlaylist, if_pos hb]
      exact hinv
    · simp only [createPlaylist, if_neg hb]
      intro p hp
      rcases List.mem_append.mp hp with h | h
      · exact hinv p h
      · rcases List.mem_singleton.mp h with rfl
        exact List.nodup_nil
  · rcases addVideo_result ps videos callerId playlistId videoId with
      heq | ⟨pl, video, hfp, hfv, hany, heq⟩
    · rw [heq]; exact hinv
    · rw [heq]
      apply hsave
      have hplmem : pl ∈ ps :=
        List.mem_of_find?_eq_some (by simpa [findPlaylist] using hfp)
      have hvid : video.id = videoId := by
        have h0 : List.find? (fun v => v.id == videoId) videos = some video := by
          simpa [findVideo] using hfv
        simpa using List.find?_some h0
      have hnotmem : videoId ∉ pl.videos := by
        intro hmem
        have h1 : pl.videos.any (fun i => i == videoId) = true :=
          List.any_eq_true.mpr ⟨videoId, hmem, by simp⟩
        rw [h1] at hany
        cases hany
      show (pl.videos ++ [video.id]).Nodup
      refine List.Nodup.append (hinv pl hplmem) (List.nodup_singleton _) ?_
      intro a ha ha2
      rcases List.mem_singleton.mp ha2 with rfl
      exact hnotmem (hvid ▸ ha)
  · rcases removeVideo_result ps videos callerId playlistId videoId with
      heq | ⟨pl, hfp, heq⟩
    · rw [heq]; exact hinv
    · rw [heq]
      apply hsave
      have hplmem : pl ∈ ps :=
        List.mem_of_find?_eq_some (by simpa [findPlaylist] using hfp)
      show (pl.videos.filter (fun i => i != videoId)).Nodup
      exact (hinv pl hplmem).filter _
  · intro pl hfp hown hex hmem
    obtain ⟨vd, hfv⟩ := hex
    have hany : pl.videos.any (fun i => i == videoId) = true :=
      List.any_eq_true.mpr ⟨videoId, hmem, by simp⟩
    have hown' : (pl.owner != callerId) = false := by simp [hown]
    constructor
    · simp [addVideoToPlaylist, hfp, hown', hfv, hany]
    · simp [addVideoToPlaylist, hfp, hown', hfv, hany]

/-- Witness for C5: caller 2 re-adding video 5 to their playlist 7, which
already contains it, answers 400 and leaves the collection unchanged. -/
theorem playlist_no_duplicates_witness :
    (addVideoToPlaylist [demoPlaylist] [demoVideo] 2 7 5).1 = 400
    ∧ (addVideoToPlaylist [demoPlaylist] [demoVideo] 2 7 5).2
      = [demoPlaylist] := by
  have h := playlist_no_duplicates [demoPlaylist] [demoVideo] 9 2 7 5 "n" "d"
    (by
      intro p hp
      rcases List.mem_singleton.mp hp with rfl
      exact List.nodup_singleton 5)
  exact h.2.2.2 demoPlaylist rfl rfl ⟨demoVideo, rfl⟩
    (List.mem_singleton.mpr rfl)

/-- CLAIM C6: for every mutating handler (update and delete) on videos,
comments, tweets and playlists — `deleteVideo`, `updateVideo`,
`updateVideoThumbnail`, `togglePublishStatus`, `deleteComment`,
`updateComment`, `deleteTweet`, `updateTweet`, `deletePlaylist`,
`updatePlaylist`, `addVideoToPlaylist`, `removeVideoFromPlaylist` — a
missing referenced resource answers 404 and an existing one whose stored
owner differs from the caller answers 401; the existence check runs before
the ownership check, so an ownership violation is reported as 401, never
masked as 404.  The body-field hypotheses keep the handlers past their
400-validation, which precedes the lookup in the source. -/
theorem ownership_check_order
    (videos : List VideoDoc) (cs : List CommentDoc) (ts : List TweetDoc)
    (ps : List PlaylistDoc) (callerId vId cId tId pId : Nat)
    (path : String) (transport : Option CloudAsset)
    (title description content tcontent pname pdesc : String)
    (htitle : title ≠ "") (hdesc : description ≠ "")
    (hcontent : content ≠ "") (htcontent : tcontent ≠ "")
    (hpname : pname ≠ "") (hpdesc : pdesc ≠ "") :
    ((findVideo videos vId = none → (deleteVideo videos callerId vId).1 = 404)
      ∧ ∀ v, findVideo videos vId = some v → v.owner ≠ callerId →
          (deleteVideo videos callerId vId).1 = 401)
    ∧ ((findVideo videos vId = none →
          (updateVideo videos callerId vId title description).1 = 404)
      ∧ ∀ v, findVideo videos vId = some v → v.owner ≠ callerId →
          (updateVideo videos callerId vId title description).1 = 401)
    ∧ ((findVideo videos vId = none →
          (updateVideoThumbnail videos callerId vId (some path)
            transport).1 = 404)
      ∧ ∀ v, findVideo videos vId = some v → v.owner ≠ callerId →
          (updateVideoThumbnail videos callerId vId (some path)
            transport).1 = 401)
    ∧ ((findVideo videos vId = none →
          (togglePublishStatus videos callerId vId).1 = 404)
      ∧ ∀ v, findVideo videos vId = some v → v.owner ≠ callerId →
          (togglePublishStatus videos callerId vId).1 = 401)
    ∧ ((findComment cs cId = none → (deleteComment cs callerId cId).1 = 404)
      ∧ ∀ c, findComment cs cId = some c → c.owner ≠ callerId →
          (deleteComment cs callerId cId).1 = 401)
    ∧ ((findComment cs cId = none →
          (updateComment cs callerId cId content).1 = 404)
      ∧ ∀ c, findComment cs cId = some c → c.owner ≠ callerId →
          (updateComment cs callerId cId content).1 = 401)
    ∧ ((findTweet ts tId = none → (deleteTweet ts callerId tId).1 = 404)
      ∧ ∀ t, findTweet ts tId = some t → t.owner ≠ callerId →
          (deleteTweet ts callerId tId).1 = 401)
    ∧ ((findTweet ts tId = none →
          (updateTweet ts callerId tId tcontent).1 = 404)
      ∧ ∀ t, findTweet ts tId = some t → t.owner ≠ callerId →
          (updateTweet ts callerId tId tcontent).1 = 401)
    ∧ ((findPlaylist ps pId = none → (deletePlaylist ps callerId pId).1 = 404)
      ∧ ∀ p, findPlaylist ps pId = some p → p.owner ≠ callerId →
          (deletePlaylist ps callerId pId).1 = 401)
    ∧ ((findPlaylist ps pId = none →
          (updatePlaylist ps callerId pId pname pdesc).1 = 404)
      ∧ ∀ p, findPlaylist ps pId = some p → p.owner ≠ callerId →
          (updatePlaylist ps callerId pId pname pdesc).1 = 401)
    ∧ ((findPlaylist ps pId = none →
          (addVideoToPlaylist ps videos callerId pId vId).1 = 404)
      ∧ ∀ p, findPlaylist ps pId = some p → p.owner ≠ callerId →
          (addVideoToPlaylist ps videos callerId pId vId).1 = 401)
    ∧ ((findPlaylist ps pId = none →
          (removeVideoFromPlaylist ps videos callerId pId vId).1 = 404)
      ∧ ∀ p, findPlaylist ps pId = some p → p.owner ≠ callerId →
          (removeVideoFromPlaylist ps videos callerId pId vId).1 = 401) := by
  refine ⟨⟨?_, ?_⟩, ⟨?_, ?_⟩, ⟨?_, ?_⟩, ⟨?_, ?_⟩, ⟨?_, ?_⟩, ⟨?_, ?_⟩,
    ⟨?_, ?_⟩, ⟨?_, ?_⟩, ⟨?_, ?_⟩, ⟨?_, ?_⟩, ⟨?_, ?_⟩, ⟨?_, ?_⟩⟩
  · intro h; simp [deleteVideo, h]
  · intro v hv hown; simp [deleteVideo, hv, hown]
  · intro h; simp [updateVideo, htitle, hdesc, h]
  · intro v hv hown; simp [updateVideo, htitle, hdesc, hv, hown]
  · intro h; simp [updateVideoThumbnail, h]
  · intro v hv hown; simp [updateVideoThumbnail, hv, hown]
  · intro h; simp [togglePublishStatus, h]
  · intro v hv hown; simp [togglePublishStatus, hv, hown]
  · intro h; simp [deleteComment, h]
  · intro c hc hown; simp [deleteComment, hc, hown]
  · intro h; simp [updateComment, hcontent, h]
  · intro c hc hown; simp [updateComment, hcontent, hc, hown]
  · intro h; simp [deleteTweet, h]
  · intro t ht hown; simp [deleteTweet, ht, hown]
  · intro h; simp [updateTweet, htcontent, h]
  · intro t ht hown; simp [updateTweet, htcontent, ht, hown]
  · intro h; simp [deletePlaylist, h]
  · intro p hp hown; simp [deletePlaylist, hp, hown]
  · intro h; simp [updatePlaylist, hpname, hpdesc, h]
  · intro p hp hown; simp [updatePlaylist, hpname, hpdesc, hp, hown]
  · intro h; simp [addVideoToPlaylist, h]
  · intro p hp hown; simp [addVideoToPlaylist, hp, hown]
  · intro h; simp [removeVideoFromPlaylist, h]
  · intro p hp hown; simp [removeVideoFromPlaylist, hp, hown]

/-- Witness for C6 at concrete inputs covering all twelve handlers in both
modes: with ids 99/98/97/96 every lookup misses (404); with ids 5/3/4/7 the
resources exist but belong to accounts 1 or 2 while account 3 calls
(401). -/
theorem ownership_check_order_witness :
    ((deleteVideo [demoVideo] 3 99).1 = 404
      ∧ (updateVideo [demoVideo] 3 99 "t2" "d2").1 = 404
      ∧ (updateVideoThumbnail [demoVideo] 3 99 (some "/tmp/t.png") none).1
        = 404
      ∧ (togglePublishStatus [demoVideo] 3 99).1 = 404
      ∧ (deleteComment [demoComment] 3 98).1 = 404
      ∧ (updateComment [demoComment] 3 98 "c2").1 = 404
      ∧ (deleteTweet [demoTweet] 3 97).1 = 404
      ∧ (updateTweet [demoTweet] 3 97 "tc2").1 = 404
      ∧ (deletePlaylist [demoPlaylist] 3 96).1 = 404
      ∧ (updatePlaylist [demoPlaylist] 3 96 "n2" "nd2").1 = 404
      ∧ (addVideoToPlaylist [demoPlaylist] [demoVideo] 3 96 99).1 = 404
      ∧ (removeVideoFromPlaylist [demoPlaylist] [demoVideo] 3 96 99).1 = 404)
    ∧ ((deleteVideo [demoVideo] 3 5).1 = 401
      ∧ (updateVideo [demoVideo] 3 5 "t2" "d2").1 = 401
      ∧ (updateVideoThumbnail [demoVideo] 3 5 (some "/tmp/t.png") none).1
        = 401
      ∧ (togglePublishStatus [demoVideo] 3 5).1 = 401
      ∧ (deleteComment [demoComment] 3 3).1 = 401
      ∧ (updateComment [demoComment] 3 3 "c2").1 = 401
      ∧ (deleteTweet [demoTweet] 3 4).1 = 401
      ∧ (updateTweet [demoTweet] 3 4 "tc2").1 = 401
      ∧ (deletePlaylist [demoPlaylist] 3 7).1 = 401
      ∧ (updatePlaylist [demoPlaylist] 3 7 "n2" "nd2").1 = 401
      ∧ (addVideoToPlaylist [demoPlaylist] [demoVideo] 3 7 5).1 = 401
      ∧ (removeVideoFromPlaylist [demoPlaylist] [demoVideo] 3 7 5).1
        = 401) := by
  obtain ⟨a1, a2, a3, a4, a5, a6, a7, a8, a9, a10, a11, a12⟩ :=
    ownership_check_order [demoVideo] [demoComment] [demoTweet] [demoPlaylist]
      3 99 98 97 96 "/tmp/t.png" none "t2" "d2" "c2" "tc2" "n2" "nd2"
      (by decide) (by decide) (by decide) (by decide) (by decide) (by decide)
  obtain ⟨b1, b2, b3, b4, b5, b6, b7, b8, b9, b10, b11, b12⟩ :=
    ownership_check_order [demoVideo] [demoComment] [demoTweet] [demoPlaylist]
      3 5 3 4 7 "/tmp/t.png" none "t2" "d2" "c2" "tc2" "n2" "nd2"
      (by decide) (by decide) (by decide) (by decide) (by decide) (by decide)
  exact ⟨⟨a1.1 rfl, a2.1 rfl, a3.1 rfl, a4.1 rfl, a5.1 rfl, a6.1 rfl,
      a7.1 rfl, a8.1 rfl, a9.1 rfl, a10.1 rfl, a11.1 rfl, a12.1 rfl⟩,
    ⟨b1.2 demoVideo rfl (by decide), b2.2 demoVideo rfl (by decide),
      b3.2 demoVideo rfl (by decide), b4.2 demoVideo rfl (by decide),
      b5.2 demoComment rfl (by decide), b6.2 demoComment rfl (by decide),
      b7.2 demoTweet rfl (by decide), b8.2 demoTweet rfl (by decide),
      b9.2 demoPlaylist rfl (by decide), b10.2 demoPlaylist rfl (by decide),
      b11.2 demoPlaylist rfl (by decide),
      b12.2 demoPlaylist rfl (by decide)⟩⟩

/-- CLAIM C7 counterexample: video 5's owner replaces its thumbnail, the
upload fails (transport returns null), yet the previous thumbnail asset
`"th1"` has already been removed from remote storage — the claim's
"previous asset is not removed when the upload fails" is false for
`updateVideoThumbnail`. -/
theorem thumbnail_removed_despite_failed_upload :
    (updateVideoThumbnail [demoVideo] 1 5 (some "/tmp/t.png") none).1 = 500
    ∧ (updateVideoThumbnail [demoVideo] 1 5 (some "/tmp/t.png") none).2.1
      = ["th1"] :=
  ⟨rfl, rfl⟩

/-- CLAIM C7 as amended: avatar and cover-image replacement delete the
previous remote asset only after the new upload is confirmed stored — on a
failed upload nothing is removed and the stored document is unchanged —
while video-thumbnail replacement removes the previous remote asset before
the upload result is checked, so the old thumbnail is removed even when the
upload fails. -/
theorem image_replacement_delete_order (user : UserDoc)
    (videos : List VideoDoc) (callerId videoId : Nat) (path : String)
    (transport : Option CloudAsset)
    (hfail : (uploadOnCloudinary path transport).1 = none) :
    ((updateUserAvatar user (some path) transport).1 = 500
      ∧ (updateUserAvatar user (some path) transport).2.1 = []
      ∧ (updateUserAvatar user (some path) transport).2.2 = user)
    ∧ ((updateUserCoverImage user (some path) transport).1 = 500
      ∧ (updateUserCoverImage user (some path) transport).2.1 = []
      ∧ (updateUserCoverImage user (some path) transport).2.2 = user)
    ∧ (∀ video, findVideo videos videoId = some video →
        video.owner = callerId →
        (updateVideoThumbnail videos callerId videoId (some path)
            transport).2.1
          = [video.thumbnail.publicId]) := by
  refine ⟨⟨?_, ?_, ?_⟩, ⟨?_, ?_, ?_⟩, ?_⟩
  · simp [updateUserAvatar, hfail]
  · simp [updateUserAvatar, hfail]
  · simp [updateUserAvatar, hfail]
  · simp [updateUserCoverImage, hfail]
  · simp [updateUserCoverImage, hfail]
  · simp [updateUserCoverImage, hfail]
  · intro video hv hown
    simp [updateVideoThumbnail, hv, hown, hfail]

/-- Witness for the amended C7 at a failing transport: user 1's avatar and
cover replacements remove nothing and change nothing, while the thumbnail
replacement on video 5 still removes the old asset. -/
theorem image_replacement_delete_order_witness :
    ((updateUserAvatar demoUser (some "/tmp/a.png") none).1 = 500
      ∧ (updateUserAvatar demoUser (some "/tmp/a.png") none).2.1 = []
      ∧ (updateUserAvatar demoUser (some "/tmp/a.png") none).2.2 = demoUser)
    ∧ ((updateUserCoverImage demoUser (some "/tmp/a.png") none).1 = 500
      ∧ (updateUserCoverImage demoUser (some "/tmp/a.png") none).2.1 = []
      ∧ (updateUserCoverImage demoUser (some "/tmp/a.png") none).2.2
        = demoUser)
    ∧ ((updateVideoThumbnail [demoVideo] 1 5 (some "/tmp/a.png") none).2.1
        = [demoVideo.thumbnail.publicId]) := by
  have h := image_replacement_delete_order demoUser [demoVideo] 1 5
    "/tmp/a.png" none rfl
  exact ⟨h.1, h.2.1, h.2.2 demoVideo rfl rfl⟩

/-- CLAIM C10: when the matching result set of `getAllVideos`,
`getUserTweets` (for an existing user) or `getLikedVideos` is empty, the
handler answers 404 rather than 200 with an empty list. -/
theorem empty_result_not_found
    (videos : List VideoDoc) (users : List UserDoc) (ts : List TweetDoc)
    (likes : List LikeDoc) (userId : Option Nat) (query : Option String)
    (sortKey : VideoDoc → Nat) (sortType : Int) (page limit : Nat)
    (uid callerId : Nat) :
    (getAllVideosResult videos users userId query sortKey sortType page limit
        = [] →
      (getAllVideos videos users userId query sortKey sortType page limit).1
        = 404)
    ∧ (∀ u, findUser users uid = some u →
        getUserTweetsResult ts users uid = [] →
        (getUserTweets ts users uid).1 = 404)
    ∧ (getLikedVideosResult likes videos users callerId = [] →
        (getLikedVideos likes videos users callerId).1 = 404) := by
  refine ⟨?_, ?_, ?_⟩
  · intro h
    simp [getAllVideos, h]
  · intro u hu h
    simp [getUserTweets, hu, h]
  · intro h
    simp [getLikedVideos, h]

/-- Witness for C10: empty stores (and, for tweets, existing user 1 with no
tweets) make every aggregation empty, and all three handlers answer 404. -/
theorem empty_result_not_found_witness :
    (getAllVideos [] [demoUser] none none (fun v => v.createdAt) (-1) 1 10).1
      = 404
    ∧ (getUserTweets [] [demoUser] 1).1 = 404
    ∧ (getLikedVideos [] [] [demoUser] 2).1 = 404 := by
  have h := empty_result_not_found [] [demoUser] [] [] none none
    (fun v => v.createdAt) (-1) 1 10 1 2
  refine ⟨h.1 ?_, h.2.1 demoUser rfl ?_, h.2.2 ?_⟩
  · simp [getAllVideosResult]
  · rfl
  · rfl

/-- CLAIM C2 (code bug, evaluated at the failing input): the account stores
email token `"t1"` and is unverified; a confirm-email request supplies token
`"t2"`, which verifies and references the account.  The handler does send 401
first, but — the mismatch branch lacking a `return` — it still marks the
account verified and clears the stored token, contradicting the claim that a
mismatching token leaves the account unchanged. -/
theorem confirmEmail_mismatch_still_verifies :
    ((confirmEmail [demoUser] (some "t2") demoVerifyEmail).sends = [401, 201])
      ∧ ((confirmEmail [demoUser] (some "t2") demoVerifyEmail).users
        = [{ demoUser with isVerifiedEmail := true, emailToken := some "" }]) := by
  constructor
  · rfl
  · rfl

end Tube
